import Mathlib

/-!
Verification of the monadage image-pipeline core: the image-variant data
model, the raster/vector representation converters, the monadic binder
`MI.bind`, the `Save` unit, and the pipeline registry with its composite
pipeline runner.  Definitions are shallow embeddings of the Python sources
(`monad_image.py`, `img_cvt.py`, `imtools.py`, `pipelines/registry.py`).
External collaborators (the PIL image library, the cairosvg rasterizer and
the potrace tracer) are modelled at the interface granularity the sources
use: images carry explicit width, height, color mode and an abstract pixel
payload; conversions record the dimension and mode behavior of the
library calls; file contents are supplied as an explicit map from path to
content, and the external tracer as an explicit function argument.
-/

/-- Decoded pixel buffer as held by a `PIL.Image.Image`: width, height,
color mode (e.g. "RGB", "RGBA", "L") and an abstract pixel payload. -/
structure PILImage where
  width : Nat
  height : Nat
  mode : String
  data : List Nat
deriving DecidableEq

/-- Models `PIL.Image.Image.convert`: produces an image in the requested
color mode with the same dimensions.  The pixel resampling performed by
PIL is abstracted away (the payload is carried over unchanged). -/
def PILImage.convert (img : PILImage) (m : String) : PILImage :=
  { img with mode := m }

/-- Models `cairosvg.surface.PNGSurface.convert` with explicit
`output_width` and `output_height`: the external rasterizer renders the
SVG content at exactly the requested pixel dimensions.  The rendered
pixel payload is abstracted as a function of the source text. -/
def cairosvgConvert (svgContent : String) (output_width output_height : Nat) : PILImage :=
  { width := output_width
    height := output_height
    mode := "RGB"
    data := List.replicate (output_width * output_height) (svgContent.length % 256) }

/-- A concrete pure black-and-white checkerboard raster, used as the
round-trip test image of the spec. -/
def checkerboard (w h : Nat) : PILImage :=
  { width := w
    height := h
    mode := "1"
    data := (List.range (w * h)).map (fun k => ((k % w + k / w) % 2) * 255) }

/-- The closed image-variant union of `monad_image.py`: a raster
(`PngImage` holding a decoded buffer), a vector (`SvgImage` holding a
source file path and logical rendering dimensions), or an error message. -/
inductive MonadImageVariant where
  | PngImage (png : PILImage)
  | SvgImage (svg_filepath : String) (logical_dimensions : Nat × Nat)
  | ImageError (err_msg : String)
deriving DecidableEq

/-- The `mode : Type[MonadImageVariant]` argument of `MI.bind` and the
`self.mode` attribute of `Save`, as the closed set of class tags the
program actually supplies (`PngImage`, `SvgImage`, or `ImageError` from a
`Save` whose output path has an unrecognized extension). -/
inductive VariantTag where
  | png
  | svg
  | err
deriving DecidableEq

/-- Rendering of a variant-class tag inside the f-string
`"Mode of bind not recognized: ..."` (Python prints the class object;
the class name stands in for that rendering). -/
def VariantTag.pyName : VariantTag → String
  | VariantTag.png => "PngImage"
  | VariantTag.svg => "SvgImage"
  | VariantTag.err => "ImageError"

/-- Pixel dimensions of a variant: the buffer's size for a raster, the
stored logical dimensions for a vector, nothing for an error. -/
def variantPixelDims : MonadImageVariant → Option (Nat × Nat)
  | MonadImageVariant.PngImage img => some (img.width, img.height)
  | MonadImageVariant.SvgImage _ d => some d
  | MonadImageVariant.ImageError _ => none

/-- Embedding of `MI.svg_to_png` (`monad_image.py`): reads the SVG source
at `svg_filepath` (file contents supplied by `fs`), renders it with the
external rasterizer at the stored logical dimensions into
`temp_png_filepath`, reopens that file and converts it to RGBA.  The
write-then-reopen of the temp file is collapsed (same content). -/
def MI.svg_to_png (fs : String → String) (svg_filepath : String)
    (logical_dimensions : Nat × Nat) (temp_png_filepath : String) : MonadImageVariant :=
  let _temp := temp_png_filepath
  MonadImageVariant.PngImage
    (PILImage.convert
      (cairosvgConvert (fs svg_filepath) logical_dimensions.1 logical_dimensions.2) "RGBA")

/-- Embedding of `MI.monochrome_png_to_svg` (`monad_image.py`): converts
the raster to a single luminance channel ("L"), saves it to a temporary
PBM file and invokes the external tracer (`potrace`) on it targeting
`output_svg_path`; the tracer's outcome (`Option String`: traced path
data on success, `none` on failure) is never inspected — exactly as the
source ignores the `subprocess.run` result — and the function returns an
`SvgImage` referencing `output_svg_path` with the grayscale image's
dimensions. -/
def MI.monochrome_png_to_svg (tracer : PILImage → Bool → String → Option String)
    (png : PILImage) (output_svg_path : String)
    (invert : optParam Bool true) (color : optParam String "#ffffff") : MonadImageVariant :=
  let img := PILImage.convert png "L"
  let _traced := tracer img invert color
  MonadImageVariant.SvgImage output_svg_path (img.width, img.height)

/-- Embedding of `MI.bind` (`monad_image.py`).  `fs` supplies file
contents by path and `tracer` is the external tracer (both reach the
conversion helpers).  The Python error case returns `self.image` (the
error variant) unchanged; the wrapper class `MI` is collapsed onto the
variant it holds, and `f` maps variants to variants.  The source's
`case _: assert_never(self.image)` arm is unreachable here because the
variant union is a closed inductive type. -/
def MI.bind (fs : String → String) (tracer : PILImage → Bool → String → Option String)
    (self : MonadImageVariant) (f : MonadImageVariant → MonadImageVariant)
    (mode : optParam VariantTag VariantTag.png) : MonadImageVariant :=
  match self with
  | MonadImageVariant.PngImage png =>
      if mode = VariantTag.png then
        f self
      else if mode = VariantTag.svg then
        f (MI.monochrome_png_to_svg tracer png "temp.svg")
      else
        MonadImageVariant.ImageError ("Mode of bind not recognized: " ++ mode.pyName)
  | MonadImageVariant.SvgImage sp dims =>
      if mode = VariantTag.svg then
        f self
      else if mode = VariantTag.png then
        f (MI.svg_to_png fs sp dims "temp.png")
      else
        MonadImageVariant.ImageError ("Mode of bind not recognized: " ++ mode.pyName)
  | MonadImageVariant.ImageError e => MonadImageVariant.ImageError e

/-- Call-counting test double for `MI.bind`: the list of arguments that
`bind` passes to the bound unit `f`, branch for branch the same dispatch
as `MI.bind` (each branch of `bind` that invokes `f` once contributes
exactly its argument; branches that never invoke `f` contribute `[]`). -/
def MI.bindUnitCalls (fs : String → String) (tracer : PILImage → Bool → String → Option String)
    (self : MonadImageVariant) (mode : optParam VariantTag VariantTag.png) :
    List MonadImageVariant :=
  match self with
  | MonadImageVariant.PngImage png =>
      if mode = VariantTag.png then
        [self]
      else if mode = VariantTag.svg then
        [MI.monochrome_png_to_svg tracer png "temp.svg"]
      else
        []
  | MonadImageVariant.SvgImage sp dims =>
      if mode = VariantTag.svg then
        [self]
      else if mode = VariantTag.png then
        [MI.svg_to_png fs sp dims "temp.png"]
      else
        []
  | MonadImageVariant.ImageError _ => []

/-- Conversion-counting instrumentation of `MI.bind`: how many
representation conversions (`monochrome_png_to_svg` or `svg_to_png`
calls) the corresponding branch of `bind` performs. -/
def MI.bindConversionCount (self : MonadImageVariant)
    (mode : optParam VariantTag VariantTag.png) : Nat :=
  match self with
  | MonadImageVariant.PngImage _ =>
      if mode = VariantTag.png then 0 else if mode = VariantTag.svg then 1 else 0
  | MonadImageVariant.SvgImage _ _ =>
      if mode = VariantTag.svg then 0 else if mode = VariantTag.png then 1 else 0
  | MonadImageVariant.ImageError _ => 0

/-- A chain of binds: fold a list of (unit, required mode) steps through
`MI.bind`, as pipeline code does by successive `.bind(...)` calls. -/
def MI.chainBinds (fs : String → String) (tracer : PILImage → Bool → String → Option String)
    (v : MonadImageVariant)
    (steps : List ((MonadImageVariant → MonadImageVariant) × VariantTag)) :
    MonadImageVariant :=
  steps.foldl (fun acc s => MI.bind fs tracer acc s.1 s.2) v

/-- Unit-invocation log of a chain of binds: all arguments passed to the
chained units, in order. -/
def MI.chainUnitCalls (fs : String → String) (tracer : PILImage → Bool → String → Option String)
    (v : MonadImageVariant)
    (steps : List ((MonadImageVariant → MonadImageVariant) × VariantTag)) :
    List MonadImageVariant :=
  match steps with
  | [] => []
  | s :: rest =>
      MI.bindUnitCalls fs tracer v s.2
        ++ MI.chainUnitCalls fs tracer (MI.bind fs tracer v s.1 s.2) rest

/-- The `Save` transform unit of `imtools.py`: holds the output path. -/
structure Save where
  outpath : String
deriving DecidableEq

/-- The `self.mode` computation of `Save.__init__`: the last four
characters of the output path select `PngImage` for ".png", `SvgImage`
for ".svg", and `ImageError` otherwise (Python's `outpath[-4:]` slice is
`String.takeRight 4`). -/
def Save.mode (s : Save) : VariantTag :=
  if s.outpath.takeRight 4 = ".png" then
    VariantTag.png
  else if s.outpath.takeRight 4 = ".svg" then
    VariantTag.svg
  else
    VariantTag.err

/-- File-writing effects performed by `Save.__call__`: saving a pixel
buffer to a path (`image.png.save(outpath)`), or copying the vector
source file to a path (`cp svg_filepath outpath`). -/
inductive SaveEffect where
  | wrotePng (img : PILImage) (path : String)
  | copiedFile (src : String) (dst : String)
deriving DecidableEq

/-- Embedding of `Save.__call__` (`imtools.py`): a `PngImage` has its
buffer written to the output path and is returned unchanged; an
`SvgImage` has its source file copied to the output path and is returned
unchanged; anything else yields `ImageError("TODO make image saving.")`
with no write.  The write effects are returned as data alongside the
result. -/
def Save.call (s : Save) (image : MonadImageVariant) : MonadImageVariant × List SaveEffect :=
  match image with
  | MonadImageVariant.PngImage png => (image, [SaveEffect.wrotePng png s.outpath])
  | MonadImageVariant.SvgImage sp _ => (image, [SaveEffect.copiedFile sp s.outpath])
  | MonadImageVariant.ImageError _ =>
      (MonadImageVariant.ImageError "TODO make image saving.", [])

/-- A constructed pipeline instance: `PIPELINES[name](**kwargs)` stores
the class identity (every registered class's `get_name` returns the
constant string equal to its registry key, verified against each class
source) and the configuration it was constructed with
(`Pipeline.__init__` stores `kwargs` as `self.config`). -/
structure PipelineInstance (Config : Type) where
  pname : String
  config : Config
deriving DecidableEq

/-- The `get_name` of a constructed pipeline: the constant name of its
class. -/
def PipelineInstance.get_name {Config : Type} (p : PipelineInstance Config) : String :=
  p.pname

/-- The keys of the static `PIPELINES` registry dict of
`pipelines/registry.py`, in insertion order. -/
def PIPELINE_NAMES : List String :=
  ["four_corners", "mosaic", "dynamic_mosaic", "glitch_art", "ascii_art",
   "vaporwave", "kaleidoscope", "pixel_sort", "oil_painting", "neon_edge",
   "datamosh", "fractal_spiral", "comic_book", "geometric_telescope",
   "crystal_refraction", "liquid_metal", "paper_cutout", "digital_rain",
   "origami_fold"]

/-- The `available` string of `get_pipeline`: `", ".join(PIPELINES.keys())`. -/
def availablePipelines : String :=
  String.intercalate ", " PIPELINE_NAMES

/-- The `ValueError` message raised by `get_pipeline` on an unknown name. -/
def unknownPipelineMsg (name : String) : String :=
  "Unknown pipeline \x27" ++ name ++ "\x27. Available pipelines: " ++ availablePipelines

/-- A composite pipeline: the ordered list of member pipeline instances. -/
structure CompositePipeline (Config : Type) where
  pipelines : List (PipelineInstance Config)
deriving DecidableEq

/-- Embedding of `CompositePipeline.get_name`: member names joined with
"+". -/
def CompositePipeline.get_name {Config : Type} (c : CompositePipeline Config) : String :=
  String.intercalate "+" (c.pipelines.map PipelineInstance.get_name)

/-- Embedding of `CompositePipeline.get_output_suffix`: "_" followed by
the member names joined with "_". -/
def CompositePipeline.get_output_suffix {Config : Type} (c : CompositePipeline Config) : String :=
  "_" ++ String.intercalate "_" (c.pipelines.map PipelineInstance.get_name)

/-- A `pathlib.Path` at the granularity `CompositePipeline.process_image`
uses: parent directory, stem, and extension. -/
structure PyPath where
  parent : String
  stem : String
  extension : String
deriving DecidableEq

/-- The intermediate output path generated for the non-final member at
step `i`: `output_path.parent / (output_path.stem + "_temp_" + i + "_" +
member_name + ".png")`. -/
def intermediatePath (output_path : PyPath) (i : Nat) (member_name : String) : PyPath :=
  { parent := output_path.parent
    stem := output_path.stem ++ "_temp_" ++ toString i ++ "_" ++ member_name
    extension := ".png" }

/-- The loop body of `CompositePipeline.process_image`: walking the
member list with index `i` and the current input path, each member is
invoked as `pipeline.process_image(current_input, current_output)` where
`current_output` is the caller's output path for the last member
(`i == n - 1`) and a generated intermediate path otherwise, and each
member's output becomes the next member's input.  The returned list
records the `(member, input, output)` invocations in order (member
internals are out of scope). -/
def processLoop {Config : Type} (n : Nat) (output_path : PyPath) :
    Nat → PyPath → List (PipelineInstance Config) →
    List (PipelineInstance Config × PyPath × PyPath)
  | _, _, [] => []
  | i, current_input, p :: rest =>
      let current_output :=
        if i = n - 1 then output_path
        else intermediatePath output_path i p.get_name
      (p, current_input, current_output)
        :: processLoop n output_path (i + 1) current_output rest

/-- Embedding of `CompositePipeline.process_image`: the ordered member
invocations `(member, input_path, output_path)` produced by the staging
loop, started at index 0 with the caller's input path. -/
def CompositePipeline.process_image {Config : Type} (c : CompositePipeline Config)
    (input_path output_path : PyPath) :
    List (PipelineInstance Config × PyPath × PyPath) :=
  processLoop c.pipelines.length output_path 0 input_path c.pipelines

/-- The argument of `get_pipeline`: a single name or a list of names. -/
inductive PipelineRequest where
  | single (name : String)
  | multi (names : List String)

/-- The result of `get_pipeline`: a single pipeline instance or a
composite. -/
inductive ResolvedPipeline (Config : Type) where
  | single (p : PipelineInstance Config)
  | composite (c : CompositePipeline Config)
deriving DecidableEq

/-- The member-construction loop of the list branch of `get_pipeline`:
for each name in order, an unknown name raises the `ValueError` for that
name; a known name contributes `PIPELINES[name](**kwargs)`. -/
def buildMembers {Config : Type} (kwargs : Config) :
    List String → Except String (List (PipelineInstance Config))
  | [] => Except.ok []
  | n :: rest =>
      if n ∈ PIPELINE_NAMES then
        match buildMembers kwargs rest with
        | Except.ok ps => Except.ok ({ pname := n, config := kwargs } :: ps)
        | Except.error e => Except.error e
      else
        Except.error (unknownPipelineMsg n)

/-- Embedding of `get_pipeline` (`pipelines/registry.py`): a single known
name yields that pipeline constructed with the supplied configuration; a
single unknown name raises the `ValueError` naming it and listing the
available pipelines; a list yields a `CompositePipeline` over one
constructed instance per name, raising the same `ValueError` at the
first unknown name.  Raised exceptions are modelled as `Except.error`. -/
def get_pipeline {Config : Type} (names : PipelineRequest) (kwargs : Config) :
    Except String (ResolvedPipeline Config) :=
  match names with
  | PipelineRequest.single name =>
      if name ∈ PIPELINE_NAMES then
        Except.ok (ResolvedPipeline.single { pname := name, config := kwargs })
      else
        Except.error (unknownPipelineMsg name)
  | PipelineRequest.multi ns =>
      match buildMembers kwargs ns with
      | Except.ok ps => Except.ok (ResolvedPipeline.composite { pipelines := ps })
      | Except.error e => Except.error e

theorem MI.chainBinds_from_error (fs : String → String)
    (tracer : PILImage → Bool → String → Option String) (e : String)
    (steps : List ((MonadImageVariant → MonadImageVariant) × VariantTag)) :
    MI.chainBinds fs tracer (MonadImageVariant.ImageError e) steps
      = MonadImageVariant.ImageError e := by
  induction steps with
  | nil => rfl
  | cons s rest ih => exact ih

theorem MI.chainUnitCalls_from_error (fs : String → String)
    (tracer : PILImage → Bool → String → Option String) (e : String)
    (steps : List ((MonadImageVariant → MonadImageVariant) × VariantTag)) :
    MI.chainUnitCalls fs tracer (MonadImageVariant.ImageError e) steps = [] := by
  induction steps with
  | nil => rfl
  | cons s rest ih => exact ih

theorem MI.chainBinds_append (fs : String → String)
    (tracer : PILImage → Bool → String → Option String) (v : MonadImageVariant)
    (steps1 steps2 : List ((MonadImageVariant → MonadImageVariant) × VariantTag)) :
    MI.chainBinds fs tracer v (steps1 ++ steps2)
      = MI.chainBinds fs tracer (MI.chainBinds fs tracer v steps1) steps2 := by
  simp [MI.chainBinds, List.foldl_append]

theorem MI.chainUnitCalls_append (fs : String → String)
    (tracer : PILImage → Bool → String → Option String) (v : MonadImageVariant)
    (steps1 steps2 : List ((MonadImageVariant → MonadImageVariant) × VariantTag)) :
    MI.chainUnitCalls fs tracer v (steps1 ++ steps2)
      = MI.chainUnitCalls fs tracer v steps1
        ++ MI.chainUnitCalls fs tracer (MI.chainBinds fs tracer v steps1) steps2 := by
  induction steps1 generalizing v with
  | nil => rfl
  | cons s rest ih =>
      show MI.bindUnitCalls fs tracer v s.2
            ++ MI.chainUnitCalls fs tracer (MI.bind fs tracer v s.1 s.2) (rest ++ steps2) = _
      rw [ih]
      simp [MI.chainUnitCalls, MI.chainBinds, List.append_assoc]

/-- C1: binding an `Error` value returns that same `Error` unchanged for
every unit and every required mode, and the unit is never invoked (its
call log is empty); consequently, once a prefix of a chain of binds has
produced an `Error`, appending further steps changes neither the final
value (the first failure's message reaches the caller) nor the
unit-invocation log (no later unit runs). -/
theorem bind_error_short_circuits (fs : String → String)
    (tracer : PILImage → Bool → String → Option String)
    (e : String) (f : MonadImageVariant → MonadImageVariant) (mode : VariantTag)
    (v : MonadImageVariant)
    (steps1 steps2 : List ((MonadImageVariant → MonadImageVariant) × VariantTag))
    (h : MI.chainBinds fs tracer v steps1 = MonadImageVariant.ImageError e) :
    MI.bind fs tracer (MonadImageVariant.ImageError e) f mode
        = MonadImageVariant.ImageError e
    ∧ MI.bindUnitCalls fs tracer (MonadImageVariant.ImageError e) mode = []
    ∧ MI.chainBinds fs tracer v (steps1 ++ steps2) = MonadImageVariant.ImageError e
    ∧ MI.chainUnitCalls fs tracer v (steps1 ++ steps2)
        = MI.chainUnitCalls fs tracer v steps1 := by
  refine ⟨rfl, rfl, ?_, ?_⟩
  · rw [MI.chainBinds_append, h, MI.chainBinds_from_error]
  · rw [MI.chainUnitCalls_append, h, MI.chainUnitCalls_from_error, List.append_nil]

/-- Witness for C1 at a concrete chain: the first step fails with
"boom", the second step is never reached. -/
theorem bind_error_short_circuits_witness :
    MI.chainBinds (fun _ => "") (fun _ _ _ => none)
        (MonadImageVariant.PngImage (checkerboard 2 2))
        ([(fun _ => MonadImageVariant.ImageError "boom", VariantTag.png)]
          ++ [(fun x => x, VariantTag.png)])
      = MonadImageVariant.ImageError "boom"
    ∧ MI.chainUnitCalls (fun _ => "") (fun _ _ _ => none)
        (MonadImageVariant.PngImage (checkerboard 2 2))
        ([(fun _ => MonadImageVariant.ImageError "boom", VariantTag.png)]
          ++ [(fun x => x, VariantTag.png)])
      = MI.chainUnitCalls (fun _ => "") (fun _ _ _ => none)
        (MonadImageVariant.PngImage (checkerboard 2 2))
        [(fun _ => MonadImageVariant.ImageError "boom", VariantTag.png)] := by
  have h := bind_error_short_circuits (fun _ => "") (fun _ _ _ => none) "boom"
    (fun x => x) VariantTag.png
    (MonadImageVariant.PngImage (checkerboard 2 2))
    [(fun _ => MonadImageVariant.ImageError "boom", VariantTag.png)]
    [(fun x => x, VariantTag.png)] rfl
  exact ⟨h.2.2.1, h.2.2.2⟩

/-- C2: the binder dispatches exhaustively over the four value/mode
combinations — matching representations are passed to the unit directly
with no conversion, and mismatching ones are passed through exactly one
conversion (`monochrome_png_to_svg` for raster-to-vector, `svg_to_png`
for vector-to-raster) before the unit is applied; every branch performs
at most one conversion. -/
theorem bind_dispatch_four_cases (fs : String → String)
    (tracer : PILImage → Bool → String → Option String)
    (f : MonadImageVariant → MonadImageVariant)
    (p : PILImage) (sp : String) (dims : Nat × Nat) :
    MI.bind fs tracer (MonadImageVariant.PngImage p) f VariantTag.png
        = f (MonadImageVariant.PngImage p)
    ∧ MI.bind fs tracer (MonadImageVariant.SvgImage sp dims) f VariantTag.svg
        = f (MonadImageVariant.SvgImage sp dims)
    ∧ MI.bind fs tracer (MonadImageVariant.PngImage p) f VariantTag.svg
        = f (MI.monochrome_png_to_svg tracer p "temp.svg")
    ∧ MI.bind fs tracer (MonadImageVariant.SvgImage sp dims) f VariantTag.png
        = f (MI.svg_to_png fs sp dims "temp.png")
    ∧ ∀ (v : MonadImageVariant) (mode : VariantTag), MI.bindConversionCount v mode ≤ 1 := by
  refine ⟨rfl, rfl, rfl, rfl, ?_⟩
  intro v mode
  cases v <;> cases mode <;> simp [MI.bindConversionCount]

/-- C3: `svg_to_png` produces a raster whose pixel dimensions equal the
vector's stored logical dimensions; `monochrome_png_to_svg` returns an
`SvgImage` whose logical dimensions equal the input raster's dimensions;
and tracing a pure black-and-white checkerboard raster to vector and
rasterizing it back through the binder preserves the bounding-box
dimensions exactly. -/
theorem conversion_preserves_dimensions (fs : String → String)
    (tracer : PILImage → Bool → String → Option String)
    (sp : String) (dims : Nat × Nat) (t : String) (p : PILImage) (path : String)
    (w h : Nat) :
    variantPixelDims (MI.svg_to_png fs sp dims t) = some dims
    ∧ MI.monochrome_png_to_svg tracer p path
        = MonadImageVariant.SvgImage path (p.width, p.height)
    ∧ variantPixelDims
        (MI.bind fs tracer
          (MI.bind fs tracer (MonadImageVariant.PngImage (checkerboard w h))
            (fun x => x) VariantTag.svg)
          (fun x => x) VariantTag.png)
      = some (w, h) :=
  ⟨rfl, rfl, rfl⟩

/-- C4 counterexample: with an external tracer that fails (always
produces no output), `monochrome_png_to_svg` still returns an `SvgImage`
— a Vector result, not the `ConversionError` the claim requires. -/
theorem monochrome_failing_tracer_still_svg :
    MI.monochrome_png_to_svg (fun _ _ _ => none) (checkerboard 2 2) "out.svg"
      = MonadImageVariant.SvgImage "out.svg" (2, 2) :=
  rfl

/-- C4 amended: `monochrome_png_to_svg` first reduces the raster to a
single luminance channel (mode "L", dimensions preserved) and invokes
the external tracer targeting the output path, but returns an `SvgImage`
referencing the output path with the grayscale image's dimensions
regardless of the tracer's outcome — the tracer result is never
inspected, so a failing tracer does not yield an Error result. -/
theorem monochrome_png_to_svg_ignores_tracer_outcome
    (tracer : PILImage → Bool → String → Option String)
    (p : PILImage) (path : String) (inv : Bool) (col : String) :
    MI.monochrome_png_to_svg tracer p path inv col
        = MonadImageVariant.SvgImage path
            ((PILImage.convert p "L").width, (PILImage.convert p "L").height)
    ∧ (PILImage.convert p "L").mode = "L"
    ∧ (PILImage.convert p "L").width = p.width
    ∧ (PILImage.convert p "L").height = p.height :=
  ⟨rfl, rfl, rfl, rfl⟩

/-- C5 counterexample: a required mode outside the two image tags is
reachable (a `Save` whose output path ends in neither ".png" nor ".svg"
has mode `ImageError`), and binding a non-Error value under that mode
returns the defined value `ImageError "Mode of bind not recognized: ..."`
— no unreachable-state assertion trips (`assert_never` guards only the
unknown-variant arm, not the unknown-mode branch). -/
theorem bind_unknown_mode_counterexample :
    MI.bind (fun _ => "") (fun _ _ _ => none)
        (MonadImageVariant.PngImage (checkerboard 1 1)) (fun v => v) VariantTag.err
      = MonadImageVariant.ImageError "Mode of bind not recognized: ImageError"
    ∧ Save.mode { outpath := "out.txt" } = VariantTag.err := by
  exact ⟨rfl, by decide⟩

/-- C5 amended: the unknown-variant arm of `bind` is the only
unreachable-state assertion; a required mode outside the two image tags
(reachable via a `Save` with an unrecognized output extension) applied
to a non-Error value does not trip an assertion but yields an
`ImageError` naming the unrecognized mode, without invoking the unit. -/
theorem bind_unknown_mode_yields_image_error (fs : String → String)
    (tracer : PILImage → Bool → String → Option String)
    (f : MonadImageVariant → MonadImageVariant)
    (p : PILImage) (sp : String) (dims : Nat × Nat) :
    MI.bind fs tracer (MonadImageVariant.PngImage p) f VariantTag.err
        = MonadImageVariant.ImageError "Mode of bind not recognized: ImageError"
    ∧ MI.bind fs tracer (MonadImageVariant.SvgImage sp dims) f VariantTag.err
        = MonadImageVariant.ImageError "Mode of bind not recognized: ImageError"
    ∧ MI.bindUnitCalls fs tracer (MonadImageVariant.PngImage p) VariantTag.err = []
    ∧ MI.bindUnitCalls fs tracer (MonadImageVariant.SvgImage sp dims) VariantTag.err = []
    ∧ Save.mode { outpath := "out.txt" } = VariantTag.err := by
  exact ⟨rfl, rfl, rfl, rfl, by decide⟩

/-- C9: `Save` is representation-polymorphic — a `PngImage` has its
pixel buffer written to the output path and is returned unchanged, an
`SvgImage` has its vector source file copied to the output path and is
returned unchanged, and any other variant (the `Error` variant) yields
an `Error` result with no file written. -/
theorem save_call_representation_polymorphic (s : Save) (p : PILImage)
    (sp : String) (d : Nat × Nat) (e : String) :
    Save.call s (MonadImageVariant.PngImage p)
        = (MonadImageVariant.PngImage p, [SaveEffect.wrotePng p s.outpath])
    ∧ Save.call s (MonadImageVariant.SvgImage sp d)
        = (MonadImageVariant.SvgImage sp d, [SaveEffect.copiedFile sp s.outpath])
    ∧ Save.call s (MonadImageVariant.ImageError e)
        = (MonadImageVariant.ImageError "TODO make image saving.", []) :=
  ⟨rfl, rfl, rfl⟩

/-- C10: when `bind` is called without an explicit mode argument the
required mode defaults to `PngImage`: a raster value is passed to the
unit directly and a vector value is first converted to raster via
`svg_to_png`. -/
theorem bind_default_mode_is_png (fs : String → String)
    (tracer : PILImage → Bool → String → Option String)
    (f : MonadImageVariant → MonadImageVariant)
    (p : PILImage) (sp : String) (dims : Nat × Nat) :
    MI.bind fs tracer (MonadImageVariant.PngImage p) f
        = f (MonadImageVariant.PngImage p)
    ∧ MI.bind fs tracer (MonadImageVariant.SvgImage sp dims) f
        = f (MI.svg_to_png fs sp dims "temp.png") :=
  ⟨rfl, rfl⟩

theorem buildMembers_first_unknown {Config : Type} (kwargs : Config) (name : String)
    (pre post : List String) (hpre : ∀ m ∈ pre, m ∈ PIPELINE_NAMES)
    (hname : name ∉ PIPELINE_NAMES) :
    buildMembers kwargs (pre ++ name :: post) = Except.error (unknownPipelineMsg name) := by
  induction pre with
  | nil => simp [buildMembers, hname]
  | cons m rest ih =>
      have hm : m ∈ PIPELINE_NAMES := hpre m (by simp)
      have hrest : ∀ x ∈ rest, x ∈ PIPELINE_NAMES := fun x hx => hpre x (by simp [hx])
      simp [buildMembers, hm, ih hrest]

set_option maxRecDepth 20000 in
/-- C6: registry lookup of a name absent from the static mapping —
whether requested alone or as an element of a multi-name list — fails
with the error naming the offending identifier, and the error text lists
every valid pipeline name; no pipeline object is returned. -/
theorem get_pipeline_unknown_name {Config : Type} (kwargs : Config) (name : String)
    (h : name ∉ PIPELINE_NAMES) :
    get_pipeline (PipelineRequest.single name) kwargs
        = Except.error (unknownPipelineMsg name)
    ∧ (∀ pre post, (∀ m ∈ pre, m ∈ PIPELINE_NAMES) →
        get_pipeline (PipelineRequest.multi (pre ++ name :: post)) kwargs
          = Except.error (unknownPipelineMsg name))
    ∧ unknownPipelineMsg name
        = "Unknown pipeline \x27" ++ name
            ++ "\x27. Available pipelines: four_corners, mosaic, dynamic_mosaic, glitch_art, ascii_art, vaporwave, kaleidoscope, pixel_sort, oil_painting, neon_edge, datamosh, fractal_spiral, comic_book, geometric_telescope, crystal_refraction, liquid_metal, paper_cutout, digital_rain, origami_fold" := by
  refine ⟨?_, ?_, ?_⟩
  · simp [get_pipeline, h]
  · intro pre post hpre
    simp [get_pipeline, buildMembers_first_unknown kwargs name pre post hpre h]
  · show ("Unknown pipeline \x27" ++ name ++ "\x27. Available pipelines: ")
          ++ availablePipelines = _
    rw [String.append_assoc]
    rw [show ("\x27. Available pipelines: " ++ availablePipelines)
      = "\x27. Available pipelines: four_corners, mosaic, dynamic_mosaic, glitch_art, ascii_art, vaporwave, kaleidoscope, pixel_sort, oil_painting, neon_edge, datamosh, fractal_spiral, comic_book, geometric_telescope, crystal_refraction, liquid_metal, paper_cutout, digital_rain, origami_fold" from by decide]

/-- Witness for C6 at the spec's concrete probe: resolving
"unknown_name" alone, and inside the list ["four_corners",
"unknown_name"], both fail with the error naming it. -/
theorem get_pipeline_unknown_name_witness :
    get_pipeline (PipelineRequest.single "unknown_name") (0 : Nat)
        = Except.error (unknownPipelineMsg "unknown_name")
    ∧ get_pipeline (PipelineRequest.multi (["four_corners"] ++ "unknown_name" :: [])) (0 : Nat)
        = Except.error (unknownPipelineMsg "unknown_name") := by
  have h := get_pipeline_unknown_name (0 : Nat) "unknown_name" (by decide)
  exact ⟨h.1, h.2.1 ["four_corners"] [] (by decide)⟩

theorem buildMembers_all_known {Config : Type} (kwargs : Config) (ns : List String)
    (h : ∀ n ∈ ns, n ∈ PIPELINE_NAMES) :
    buildMembers kwargs ns
      = Except.ok (ns.map (fun n => { pname := n, config := kwargs })) := by
  induction ns with
  | nil => rfl
  | cons n rest ih =>
      have hn : n ∈ PIPELINE_NAMES := h n (by simp)
      have hrest : ∀ x ∈ rest, x ∈ PIPELINE_NAMES := fun x hx => h x (by simp [hx])
      simp [buildMembers, hn, ih hrest]

/-- C7: resolving a list of known names returns a composite pipeline
wrapping one constructed instance per name, in the given order, all
holding the same configuration object; the composite's name is the
member names joined with "+" and its output suffix is "_" followed by
the member names joined with "_". -/
theorem get_pipeline_multi_known (Config : Type) (kwargs : Config) (ns : List String)
    (h : ∀ n ∈ ns, n ∈ PIPELINE_NAMES) :
    get_pipeline (PipelineRequest.multi ns) kwargs
        = Except.ok (ResolvedPipeline.composite
            { pipelines := ns.map (fun n => { pname := n, config := kwargs }) })
    ∧ CompositePipeline.get_name
        ({ pipelines := ns.map (fun n => { pname := n, config := kwargs }) }
          : CompositePipeline Config)
        = String.intercalate "+" ns
    ∧ CompositePipeline.get_output_suffix
        ({ pipelines := ns.map (fun n => { pname := n, config := kwargs }) }
          : CompositePipeline Config)
        = "_" ++ String.intercalate "_" ns
    ∧ (ns.map (fun n => ({ pname := n, config := kwargs } : PipelineInstance Config))).map
          PipelineInstance.config
        = List.replicate ns.length kwargs := by
  refine ⟨?_, ?_, ?_, ?_⟩
  · simp [get_pipeline, buildMembers_all_known kwargs ns h]
  · simp [CompositePipeline.get_name, PipelineInstance.get_name, List.map_map,
      Function.comp_def]
  · simp [CompositePipeline.get_output_suffix, PipelineInstance.get_name, List.map_map,
      Function.comp_def]
  · simp [List.map_map, Function.comp_def, PipelineInstance.config]

/-- Witness for C7: resolving ["four_corners", "mosaic"] yields the
two-member composite named "four_corners+mosaic" with suffix
"_four_corners_mosaic". -/
theorem get_pipeline_multi_known_witness :
    get_pipeline (PipelineRequest.multi ["four_corners", "mosaic"]) (0 : Nat)
        = Except.ok (ResolvedPipeline.composite
            { pipelines := [{ pname := "four_corners", config := 0 },
                            { pname := "mosaic", config := 0 }] })
    ∧ CompositePipeline.get_name
        ({ pipelines := [{ pname := "four_corners", config := 0 },
                         { pname := "mosaic", config := 0 }] } : CompositePipeline Nat)
        = "four_corners+mosaic"
    ∧ CompositePipeline.get_output_suffix
        ({ pipelines := [{ pname := "four_corners", config := 0 },
                         { pname := "mosaic", config := 0 }] } : CompositePipeline Nat)
        = "_four_corners_mosaic" := by
  have h := get_pipeline_multi_known Nat (0 : Nat) ["four_corners", "mosaic"] (by decide)
  exact ⟨h.1, h.2.1.trans (by decide), h.2.2.1.trans (by decide)⟩

theorem processLoop_length {Config : Type} (n : Nat) (out : PyPath)
    (ps : List (PipelineInstance Config)) :
    ∀ (i : Nat) (cur : PyPath), (processLoop n out i cur ps).length = ps.length := by
  induction ps with
  | nil => intro i cur; rfl
  | cons p rest ih => intro i cur; simp [processLoop, ih]

theorem processLoop_map_fst {Config : Type} (n : Nat) (out : PyPath)
    (ps : List (PipelineInstance Config)) :
    ∀ (i : Nat) (cur : PyPath), (processLoop n out i cur ps).map Prod.fst = ps := by
  induction ps with
  | nil => intro i cur; rfl
  | cons p rest ih => intro i cur; simp [processLoop, ih]

theorem processLoop_get_zero_input {Config : Type} (n : Nat) (out : PyPath)
    (ps : List (PipelineInstance Config)) (i : Nat) (cur : PyPath)
    (c0 : PipelineInstance Config × PyPath × PyPath)
    (h : (processLoop n out i cur ps).get? 0 = some c0) : c0.2.1 = cur := by
  cases ps with
  | nil => simp [processLoop] at h
  | cons p rest =>
      have h2 : (p, cur,
          if i = n - 1 then out else intermediatePath out i p.get_name) = c0 :=
        Option.some.inj h
      rw [← h2]

theorem processLoop_get_output {Config : Type} (n : Nat) (out : PyPath)
    (ps : List (PipelineInstance Config)) :
    ∀ (i : Nat) (cur : PyPath) (j : Nat) (p : PipelineInstance Config) (a b : PyPath),
      (processLoop n out i cur ps).get? j = some (p, a, b) →
      b = if i + j = n - 1 then out else intermediatePath out (i + j) p.get_name := by
  induction ps with
  | nil => intro i cur j p a b h; simp [processLoop] at h
  | cons q rest ih =>
      intro i cur j p a b h
      cases j with
      | zero =>
          have h2 : (q, cur,
              if i = n - 1 then out else intermediatePath out i q.get_name)
                = ((p, a, b) : PipelineInstance Config × PyPath × PyPath) :=
            Option.some.inj h
          rw [Prod.mk.injEq, Prod.mk.injEq] at h2
          obtain ⟨hqp, _, hb⟩ := h2
          rw [← hb, ← hqp]
          rfl
      | succ j =>
          have h2 : (processLoop n out (i + 1)
              (if i = n - 1 then out else intermediatePath out i q.get_name)
              rest).get? j = some (p, a, b) := h
          rw [ih (i + 1) _ j p a b h2]
          rw [show (i + 1) + j = i + (j + 1) from by omega]

theorem processLoop_chain {Config : Type} (n : Nat) (out : PyPath)
    (ps : List (PipelineInstance Config)) :
    ∀ (i : Nat) (cur : PyPath) (j : Nat)
      (c1 c2 : PipelineInstance Config × PyPath × PyPath),
      (processLoop n out i cur ps).get? j = some c1 →
      (processLoop n out i cur ps).get? (j + 1) = some c2 →
      c2.2.1 = c1.2.2 := by
  induction ps with
  | nil => intro i cur j c1 c2 h1 h2; simp [processLoop] at h1
  | cons q rest ih =>
      intro i cur j c1 c2 h1 h2
      cases j with
      | zero =>
          have h1' : (q, cur,
              if i = n - 1 then out else intermediatePath out i q.get_name) = c1 :=
            Option.some.inj h1
          have h2' : (processLoop n out (i + 1)
              (if i = n - 1 then out else intermediatePath out i q.get_name)
              rest).get? 0 = some c2 := h2
          rw [processLoop_get_zero_input n out rest (i + 1) _ c2 h2', ← h1']
      | succ j => exact ih (i + 1) _ j c1 c2 h1 h2

/-- C8: the composite runner invokes its members strictly in sequence —
one invocation per member, in order; the first member reads the caller's
input path; every member except the last writes to an intermediate path
generated from the final output's stem, the member's step index and the
member's name (and the last member writes to the caller's real output
path); and each invocation's output path is the next invocation's input
path. -/
theorem composite_process_image_staging {Config : Type} (c : CompositePipeline Config)
    (input_path output_path : PyPath) :
    (CompositePipeline.process_image c input_path output_path).length
        = c.pipelines.length
    ∧ (CompositePipeline.process_image c input_path output_path).map Prod.fst
        = c.pipelines
    ∧ (∀ c0, (CompositePipeline.process_image c input_path output_path).get? 0 = some c0 →
        c0.2.1 = input_path)
    ∧ (∀ j p a b,
        (CompositePipeline.process_image c input_path output_path).get? j = some (p, a, b) →
        b = if j = c.pipelines.length - 1 then output_path
            else intermediatePath output_path j p.get_name)
    ∧ (∀ j c1 c2,
        (CompositePipeline.process_image c input_path output_path).get? j = some c1 →
        (CompositePipeline.process_image c input_path output_path).get? (j + 1) = some c2 →
        c2.2.1 = c1.2.2) := by
  refine ⟨processLoop_length _ _ _ 0 _, processLoop_map_fst _ _ _ 0 _,
    fun c0 h => processLoop_get_zero_input _ _ _ 0 _ c0 h,
    fun j p a b h => ?_,
    fun j c1 c2 h1 h2 => processLoop_chain _ _ _ 0 _ j c1 c2 h1 h2⟩
  have h3 := processLoop_get_output c.pipelines.length output_path c.pipelines
    0 input_path j p a b h
  simpa using h3

/-- Witness for C8 at a concrete two-member composite: the first (non
last) member's output path is the generated intermediate path built from
the final output's stem, step index 0 and the member name. -/
theorem composite_process_image_staging_witness :
    (⟨"out", "res_temp_0_four_corners", ".png"⟩ : PyPath)
      = if 0 = ([{ pname := "four_corners", config := (0 : Nat) },
                 { pname := "mosaic", config := (0 : Nat) }]
            : List (PipelineInstance Nat)).length - 1
        then (⟨"out", "res", ".png"⟩ : PyPath)
        else intermediatePath ⟨"out", "res", ".png"⟩ 0
          (PipelineInstance.get_name
            ({ pname := "four_corners", config := (0 : Nat) } : PipelineInstance Nat)) := by
  exact (composite_process_image_staging
      ({ pipelines := [{ pname := "four_corners", config := 0 },
                       { pname := "mosaic", config := 0 }] } : CompositePipeline Nat)
      ⟨"in", "img", ".png"⟩ ⟨"out", "res", ".png"⟩).2.2.2.1 0
    { pname := "four_corners", config := 0 } ⟨"in", "img", ".png"⟩
    ⟨"out", "res_temp_0_four_corners", ".png"⟩ rfl
